import Mathlib

/-!
Verification of the iterator-protocol slice of the runtime
(`vm/src/protocol/iter.rs`).

Shallow embedding conventions:
* `PyObjectRef` is a runtime value: a type-table index (`cls`) plus an
  object identity (`oid`).  Objects are opaque to this slice apart from
  their class, so no payload is modelled.
* Slot function pointers are defunctionalized as `Nat` identifiers; the
  `VirtualMachine` carries the interpretation of each slot family
  (`iternextImpl`, `getiterImpl`).  A slot behaviour receives the call
  index (how many calls of that family happened before), which lets a
  single pure function model an arbitrary stateful slot, including the
  call-counting stubs the spec asks for.
* Effects are threaded through `VMState`, which counts the invocations
  of the `iternext` slots, of the `iter` (get-iterator) slots and of the
  length-estimation collaborator `vm.length_hint`.
* Exception classes (`vm.ctx.exceptions.*`) are embedded as the
  enumeration `ExcKind`; `isinstance` against one of those classes is
  kind equality.
* `Result`/`PyResult` is `Except PyBaseException`.
-/

/-- A runtime value: class pointer (index into the type table) plus
object identity.  Cloning a reference does not change either field, so
reference-count bookkeeping is elided. -/
structure PyObjectRef where
  cls : Nat
  oid : Nat
  deriving DecidableEq, Repr

/-- The exception classes this slice tests against
(`vm.ctx.exceptions.stop_iteration`, `stop_async_iteration`,
`index_error`) plus the type errors it raises itself and a catch-all for
every other class. -/
inductive ExcKind where
  | stopIteration
  | stopAsyncIteration
  | indexError
  | typeError
  | otherError
  deriving DecidableEq, Repr

/-- An exception object: its class kind, its argument tuple, and the
message used by `new_type_error`. -/
structure PyBaseException where
  kind : ExcKind
  args : List PyObjectRef
  msg : Option String
  deriving DecidableEq, Repr

/-- `err.isinstance(cls)` for the classes of `ExcKind`. -/
def PyBaseException.isinstance (e : PyBaseException) (k : ExcKind) : Bool :=
  e.kind = k

/-- `err.get_arg(i)`: the i-th argument of the exception if present.
Modelled from the spec: the accessor is declared outside this slice; the
spec says the payload is "the signal's first argument if any". -/
def PyBaseException.get_arg (e : PyBaseException) (i : Nat) : Option PyObjectRef :=
  e.args.get? i

/-- `PyResult<T>`. -/
abbrev PyResult (α : Type) : Type := Except PyBaseException α

/-- `PyIterReturn` (the Advance Result), specialized at its default type
parameter `T = PyObjectRef`. -/
inductive PyIterReturn where
  | Return (obj : PyObjectRef)
  | StopIteration (v : Option PyObjectRef)
  deriving DecidableEq, Repr

/-- A runtime type: its name, its method resolution order (a list of
type-table indices, the type itself first, as produced by `iter_mro`),
and its slot table restricted to the two slots this slice reads
(`slots.iternext.load()` and `slots.iter.load()`), each an optional
defunctionalized function pointer. -/
structure PyType where
  name : String
  mro : List Nat
  iternextSlot : Option Nat
  iterSlot : Option Nat
  deriving Repr

/-- Per-run effect counters: how many `iternext` slot calls, `iter`
(get-iterator) slot calls and `vm.length_hint` probes have happened. -/
structure VMState where
  iternextCalls : Nat
  getiterCalls : Nat
  lengthHintCalls : Nat
  deriving DecidableEq, Repr

/-- The virtual machine, restricted to what `iter.rs` consumes: the type
table, the interpretations of the defunctionalized slot families, the
`__getitem__` method lookup used by `get_method_or_type_error`, the
length-estimation collaborator `vm.length_hint`, the
`PySequenceIterator::new(..).into_ref(vm).into_object()` constructor,
and the element conversion `T::try_from_object` used by `PyIterIter`. -/
structure VirtualMachine where
  typeOf : Nat → PyType
  iternextImpl : Nat → PyObjectRef → Nat → PyResult PyIterReturn
  getiterImpl : Nat → PyObjectRef → Nat → PyResult PyObjectRef
  hasGetitemMethod : PyObjectRef → Bool
  lengthHintFn : PyObjectRef → Nat → PyResult (Option Nat)
  seqIterOf : PyObjectRef → PyObjectRef
  convertItem : PyObjectRef → PyResult PyObjectRef

/-- `obj.class()`. -/
def VirtualMachine.classOf (vm : VirtualMachine) (obj : PyObjectRef) : PyType :=
  vm.typeOf obj.cls

/-- `cls.mro_find_map(f)`: first non-empty `f` along the MRO. -/
def VirtualMachine.mro_find_map {α : Type} (vm : VirtualMachine) (cls : PyType)
    (f : PyType → Option α) : Option α :=
  cls.mro.findSome? (fun tid => f (vm.typeOf tid))

/-- The character `'` (used by the runtime's error messages). -/
def singleQuote : String :=
  String.mk [Char.ofNat 39]

/-- `vm.new_type_error(msg)`. -/
def VirtualMachine.new_type_error (_vm : VirtualMachine) (m : String) : PyBaseException :=
  ⟨.typeError, [], some m⟩

/-- `vm.new_exception(cls, args)`. -/
def VirtualMachine.new_exception (_vm : VirtualMachine) (k : ExcKind)
    (args : List PyObjectRef) : PyBaseException :=
  ⟨k, args, none⟩

/-- Modelled from the spec: `vm.new_stop_iteration(v)` is defined outside
this slice; per the spec the exhaustion signal optionally carries one
payload value as its (only) argument, so `Some v` yields argument list
`[v]` and `None` yields the empty argument list. -/
def VirtualMachine.new_stop_iteration (_vm : VirtualMachine)
    (v : Option PyObjectRef) : PyBaseException :=
  ⟨.stopIteration, v.toList, none⟩

/-- `PyIter` (the Iterator Handle), at its default `T = PyObjectRef`:
a transparent wrapper around the runtime value. -/
structure PyIter where
  obj : PyObjectRef
  deriving DecidableEq, Repr

/-- `PyIter::check`: the value's class resolves an `iternext` slot along
its MRO. -/
def PyIter.check (vm : VirtualMachine) (obj : PyObjectRef) : Bool :=
  (vm.mro_find_map (vm.classOf obj) PyType.iternextSlot).isSome

/-- `PyIter::next`: re-resolve `iternext` through the MRO of the wrapped
value's current class; if absent fail with the not-an-iterator type
error, otherwise invoke the resolved slot function once (the call
counter advances) and return its outcome unchanged. -/
def PyIter.next (vm : VirtualMachine) (it : PyIter) (s : VMState) :
    VMState × PyResult PyIterReturn :=
  match vm.mro_find_map (vm.classOf it.obj) PyType.iternextSlot with
  | none =>
      (s, .error (vm.new_type_error
        (singleQuote ++ (vm.classOf it.obj).name ++ singleQuote
          ++ " object is not an iterator")))
  | some slotId =>
      ({ s with iternextCalls := s.iternextCalls + 1 },
        vm.iternextImpl slotId it.obj s.iternextCalls)

/-- The Host Adapter `PyIterIter`, at element type `T = PyObjectRef`:
the wrapped handle and the advisory length hint captured at
construction.  (The `vm` reference and the phantom are passed
explicitly / elided.) -/
structure PyIterIter where
  obj : PyIter
  length_hint : Option Nat
  deriving DecidableEq, Repr

/-- `PyIter::iter`: probe the length-estimation collaborator once
(propagating its failure) and build the Host Adapter over a clone of the
wrapped object together with the obtained hint. -/
def PyIter.iter (vm : VirtualMachine) (it : PyIter) (s : VMState) :
    VMState × PyResult PyIterIter :=
  let s1 : VMState := { s with lengthHintCalls := s.lengthHintCalls + 1 }
  match vm.lengthHintFn it.obj s.lengthHintCalls with
  | .error e => (s1, .error e)
  | .ok h => (s1, .ok ⟨⟨it.obj⟩, h⟩)

/-- `PyIter::try_from_object` (the Protocol Negotiator): resolve the
`iter` slot on the target's class; if present invoke it, check the
candidate with `PyIter::check` and either wrap it or fail with the
returned-non-iterator type error; if absent look up `__getitem__` and
either wrap a fresh `PySequenceIterator` or fail with the not-iterable
type error. -/
def PyIter.try_from_object (vm : VirtualMachine) (iter_target : PyObjectRef)
    (s : VMState) : VMState × PyResult PyIter :=
  match vm.mro_find_map (vm.classOf iter_target) PyType.iterSlot with
  | some getiter =>
      let s1 : VMState := { s with getiterCalls := s.getiterCalls + 1 }
      match vm.getiterImpl getiter iter_target s.getiterCalls with
      | .error e => (s1, .error e)
      | .ok iter =>
          if PyIter.check vm iter then
            (s1, .ok ⟨iter⟩)
          else
            (s1, .error (vm.new_type_error
              ("iter() returned non-iterator of type " ++ singleQuote
                ++ (vm.classOf iter).name ++ singleQuote)))
  | none =>
      if vm.hasGetitemMethod iter_target then
        (s, .ok ⟨vm.seqIterOf iter_target⟩)
      else
        (s, .error (vm.new_type_error
          (singleQuote ++ (vm.classOf iter_target).name ++ singleQuote
            ++ " object is not iterable")))

/-- `PyObjectRef::get_iter` delegates to `PyIter::try_from_object`. -/
def PyObjectRef.get_iter (self : PyObjectRef) (vm : VirtualMachine) (s : VMState) :
    VMState × PyResult PyIter :=
  PyIter.try_from_object vm self s

/-- `PyIterReturn::from_pyresult`. -/
def PyIterReturn.from_pyresult (result : PyResult PyObjectRef) : PyResult PyIterReturn :=
  match result with
  | .ok obj => .ok (.Return obj)
  | .error err =>
      if err.isinstance .stopIteration then
        .ok (.StopIteration (err.get_arg 0))
      else
        .error err

/-- `PyIterReturn::from_getitem_result`. -/
def PyIterReturn.from_getitem_result (result : PyResult PyObjectRef) :
    PyResult PyIterReturn :=
  match result with
  | .ok obj => .ok (.Return obj)
  | .error err =>
      if err.isinstance .indexError then
        .ok (.StopIteration none)
      else if err.isinstance .stopIteration then
        .ok (.StopIteration (err.get_arg 0))
      else
        .error err

/-- `PyIterReturn::into_async_pyresult` (the Async Projector). -/
def PyIterReturn.into_async_pyresult (vm : VirtualMachine) (r : PyIterReturn) :
    PyResult PyObjectRef :=
  match r with
  | .Return obj => .ok obj
  | .StopIteration v =>
      .error (vm.new_exception .stopAsyncIteration
        (match v with
         | some x => [x]
         | none => []))

/-- `IntoPyResult for PyIterReturn`: `into_pyresult`. -/
def PyIterReturn.into_pyresult (vm : VirtualMachine) (r : PyIterReturn) :
    PyResult PyObjectRef :=
  match r with
  | .Return obj => .ok obj
  | .StopIteration v => .error (vm.new_stop_iteration v)

/-- `Iterator::next` for `PyIterIter`: call `self.obj.next(self.vm)`,
map `Return` to a present element (converted through
`T::try_from_object`), `StopIteration` to absence, and a propagated
failure to a present error item (`transpose` semantics). -/
def PyIterIter.next (vm : VirtualMachine) (it : PyIterIter) (s : VMState) :
    VMState × Option (PyResult PyObjectRef) :=
  let r := PyIter.next vm it.obj s
  (r.1,
    match r.2 with
    | .ok (.Return obj) => some (vm.convertItem obj)
    | .ok (.StopIteration _) => none
    | .error e => some (.error e))

/-- `Iterator::size_hint` for `PyIterIter`. -/
def PyIterIter.size_hint (it : PyIterIter) : Nat × Option Nat :=
  (it.length_hint.getD 0, it.length_hint)

/-- Modelled from the spec: the registration of iterator types is outside
this slice; per the spec, a value whose type supplies a working advance
slot is "already an iterator" and obtaining an iterator from it yields
the value itself, i.e. such a type's get-iterator slot resolves and its
invocation returns the receiver unchanged. -/
def IteratorTypesSelfIter (vm : VirtualMachine) : Prop :=
  ∀ obj : PyObjectRef, PyIter.check vm obj = true →
    ∃ slotId : Nat,
      vm.mro_find_map (vm.classOf obj) PyType.iterSlot = some slotId ∧
      ∀ callIdx : Nat, vm.getiterImpl slotId obj callIdx = .ok obj

/-! Concrete fixtures used by the witnesses and the counterexample. -/

/-- A built-in iterator type: `iternext` is slot 0, `iter` is slot 1. -/
def iterTypeA : PyType :=
  ⟨"listiterator", [0], some 0, some 1⟩

/-- A type with no iterator-related slots. -/
def plainType : PyType :=
  ⟨"Flub", [1], none, none⟩

/-- A type whose class supplies `iter` (slot 5) but no `iternext`. -/
def badIterType : PyType :=
  ⟨"Spam", [0], none, some 5⟩

/-- Type table: index 0 the bad-`iter` type, everything else plain. -/
def typeTableBad : Nat → PyType :=
  fun n => if n = 0 then badIterType else plainType

/-- A machine in which every type is the iterator type `iterTypeA`, the
get-iterator slot returns its receiver, and `iternext` always reports
exhaustion; the length probe reports 3. -/
def vmSelfIter : VirtualMachine :=
  ⟨fun _ => iterTypeA,
   fun _ _ _ => .ok (.StopIteration none),
   fun _ obj _ => .ok obj,
   fun _ => false,
   fun _ _ => .ok (some 3),
   fun o => o,
   fun o => .ok o⟩

/-- A machine in which every type is `plainType` (no slots, no
`__getitem__`). -/
def vmPlain : VirtualMachine :=
  ⟨fun _ => plainType,
   fun _ _ _ => .ok (.StopIteration none),
   fun _ obj _ => .ok obj,
   fun _ => false,
   fun _ _ => .ok none,
   fun o => o,
   fun o => .ok o⟩

/-- A machine whose get-iterator slot returns an inert candidate of the
plain class; `__getitem__` would even be available, showing the
negotiator does not fall back to it. -/
def vmBadIter : VirtualMachine :=
  ⟨typeTableBad,
   fun _ _ _ => .ok (.StopIteration none),
   fun _ _ _ => .ok ⟨1, 42⟩,
   fun _ => true,
   fun _ _ => .ok none,
   fun o => o,
   fun o => .ok o⟩

/-- A machine whose `iternext` stub reports exhaustion on its first call
(call index 0) and produces an element on every later call, exposing
whether the Host Adapter ever calls `advance` again after the first
exhaustion. -/
def vmFuse : VirtualMachine :=
  ⟨fun _ => iterTypeA,
   fun _ _ k => if k = 0 then .ok (.StopIteration none) else .ok (.Return ⟨0, 99⟩),
   fun _ obj _ => .ok obj,
   fun _ => false,
   fun _ _ => .ok none,
   fun o => o,
   fun o => .ok o⟩

/-- The Host Adapter over an iterator instance in `vmFuse`. -/
def fuseAdapter : PyIterIter :=
  ⟨⟨⟨0, 7⟩⟩, some 3⟩

/-! The claims. -/

/-- C1 counterexample: `PyIterIter` keeps no exhaustion flag.  Over a
stub whose first `iternext` call reports exhaustion and whose second
produces an element, the first adapter call reports absence (one
`iternext` invocation), yet the very next adapter call invokes the
underlying advance again (the counter rises to 2) and even reports a
present element — contradicting both "every subsequent call also
reports absence" and "advance is never invoked again". -/
theorem c1_counterexample :
    PyIterIter.next vmFuse fuseAdapter ⟨0, 0, 0⟩ = (⟨1, 0, 0⟩, none) ∧
    PyIterIter.next vmFuse fuseAdapter ⟨1, 0, 0⟩ =
      (⟨2, 0, 0⟩, some (.ok ⟨0, 99⟩)) :=
  ⟨rfl, rfl⟩

/-- C1 amended: every call to the Host Adapter's produce-next operation
performs exactly the underlying `PyIter::next` (same effect on the call
counters, in particular one more `iternext` invocation whenever the slot
resolves), and reports absence exactly when that advance reports
exhaustion; the adapter is not fused, so calls after a first exhaustion
behave the same way. -/
theorem c1_host_adapter_no_fuse (vm : VirtualMachine) (it : PyIterIter) (s : VMState) :
    (PyIterIter.next vm it s).1 = (PyIter.next vm it.obj s).1 ∧
    ((PyIterIter.next vm it s).2 = none ↔
      ∃ v : Option PyObjectRef, (PyIter.next vm it.obj s).2 = .ok (.StopIteration v)) := by
  unfold PyIterIter.next
  refine ⟨rfl, ?_⟩
  cases h : (PyIter.next vm it.obj s).2 with
  | ok r =>
      cases r with
      | Return obj => simp [h]
      | StopIteration v => simp [h]
  | error e => simp [h]

/-- C2: a value whose type supplies a working advance slot passes
`PyIter::check`, and the negotiator returns a Handle wrapping the value
itself (under the spec-modelled invariant that iterator types'
get-iterator slot returns the receiver). -/
theorem c2_iterator_identity (vm : VirtualMachine) (v : PyObjectRef) (s : VMState)
    (henv : IteratorTypesSelfIter vm) (hch : PyIter.check vm v = true) :
    PyIter.check vm v = true ∧
    (PyIter.try_from_object vm v s).2 = .ok ⟨v⟩ := by
  obtain ⟨slotId, hres, himpl⟩ := henv v hch
  exact ⟨hch, by simp [PyIter.try_from_object, hres, himpl s.getiterCalls, hch]⟩

/-- C2 witness: in `vmSelfIter` the iterator instance `⟨0, 7⟩` checks
true and negotiation returns a Handle wrapping it. -/
theorem c2_witness :
    PyIter.check vmSelfIter ⟨0, 7⟩ = true ∧
    (PyIter.try_from_object vmSelfIter ⟨0, 7⟩ ⟨0, 0, 0⟩).2 = .ok ⟨⟨0, 7⟩⟩ :=
  c2_iterator_identity vmSelfIter ⟨0, 7⟩ ⟨0, 0, 0⟩
    (fun _ _ => ⟨1, rfl, fun _ => rfl⟩) rfl

/-- C3: when the target's class resolves a get-iterator slot, the
negotiator invokes that slot exactly once (whatever the outcome), and if
the candidate it returns fails `PyIter::check`, negotiation fails with
the returned-non-iterator type error naming the candidate's class — the
result is pinned regardless of any available `__getitem__`, so there is
no fallback to the get-item tier. -/
theorem c3_bad_iterator_protocol (vm : VirtualMachine) (v : PyObjectRef) (s : VMState)
    (slotId : Nat)
    (hres : vm.mro_find_map (vm.classOf v) PyType.iterSlot = some slotId) :
    (PyIter.try_from_object vm v s).1.getiterCalls = s.getiterCalls + 1 ∧
    (∀ cand : PyObjectRef,
      vm.getiterImpl slotId v s.getiterCalls = .ok cand →
      PyIter.check vm cand = false →
      (PyIter.try_from_object vm v s).2 =
        .error (vm.new_type_error
          ("iter() returned non-iterator of type " ++ singleQuote
            ++ (vm.classOf cand).name ++ singleQuote))) := by
  constructor
  · unfold PyIter.try_from_object
    rw [hres]
    cases h : vm.getiterImpl slotId v s.getiterCalls with
    | ok iter =>
        by_cases hc : PyIter.check vm iter
        · simp [h, hc]
        · simp [h, hc]
    | error e => simp [h]
  · intro cand himpl hfail
    simp [PyIter.try_from_object, hres, himpl, hfail]

/-- C3 witness: in `vmBadIter` (slot 5 resolves, its candidate is of the
slotless class `Flub`, `__getitem__` even available) negotiation calls
the slot once and fails with the returned-non-iterator error naming
`Flub`. -/
theorem c3_witness :
    (PyIter.try_from_object vmBadIter ⟨0, 7⟩ ⟨0, 0, 0⟩).1.getiterCalls = 1 ∧
    (PyIter.try_from_object vmBadIter ⟨0, 7⟩ ⟨0, 0, 0⟩).2 =
      .error ⟨.typeError, [],
        some ("iter() returned non-iterator of type " ++ singleQuote
          ++ "Flub" ++ singleQuote)⟩ := by
  have h := c3_bad_iterator_protocol vmBadIter ⟨0, 7⟩ ⟨0, 0, 0⟩ 5 rfl
  exact ⟨h.1, h.2 ⟨1, 42⟩ rfl rfl⟩

/-- C4: when the target's class resolves no get-iterator slot and
`__getitem__` lookup fails too, negotiation fails with the
not-iterable type error naming the target's class, leaving the call
counters untouched and producing no Handle. -/
theorem c4_not_iterable (vm : VirtualMachine) (v : PyObjectRef) (s : VMState)
    (hres : vm.mro_find_map (vm.classOf v) PyType.iterSlot = none)
    (hgi : vm.hasGetitemMethod v = false) :
    PyIter.try_from_object vm v s =
      (s, .error (vm.new_type_error
        (singleQuote ++ (vm.classOf v).name ++ singleQuote
          ++ " object is not iterable"))) := by
  simp [PyIter.try_from_object, hres, hgi]

/-- C4 witness: in `vmPlain` the plain object `⟨1, 8⟩` is rejected with
the not-iterable error naming `Flub`. -/
theorem c4_witness :
    PyIter.try_from_object vmPlain ⟨1, 8⟩ ⟨0, 0, 0⟩ =
      (⟨0, 0, 0⟩, .error ⟨.typeError, [],
        some (singleQuote ++ "Flub" ++ singleQuote ++ " object is not iterable")⟩) :=
  c4_not_iterable vmPlain ⟨1, 8⟩ ⟨0, 0, 0⟩ rfl rfl

/-- C5: each call to `PyIter::next` resolves `iternext` through the MRO
of the wrapped value's current class; if resolution fails the call fails
with the not-an-iterator type error naming that class (no slot call is
made), otherwise the resolved slot function is invoked exactly once (the
counter advances by one) and its outcome is returned unchanged. -/
theorem c5_advance_resolution (vm : VirtualMachine) (it : PyIter) (s : VMState) :
    (vm.mro_find_map (vm.classOf it.obj) PyType.iternextSlot = none →
      PyIter.next vm it s =
        (s, .error (vm.new_type_error
          (singleQuote ++ (vm.classOf it.obj).name ++ singleQuote
            ++ " object is not an iterator")))) ∧
    (∀ slotId : Nat,
      vm.mro_find_map (vm.classOf it.obj) PyType.iternextSlot = some slotId →
      PyIter.next vm it s =
        ({ s with iternextCalls := s.iternextCalls + 1 },
          vm.iternextImpl slotId it.obj s.iternextCalls)) := by
  constructor
  · intro hres
    simp [PyIter.next, hres]
  · intro slotId hres
    simp [PyIter.next, hres]

/-- C5 witness: on an iterator instance the slot outcome is returned
unchanged with the counter advanced; on a slotless instance the call
fails with the not-an-iterator error naming `Flub`. -/
theorem c5_witness :
    PyIter.next vmSelfIter ⟨⟨0, 7⟩⟩ ⟨0, 0, 0⟩ = (⟨1, 0, 0⟩, .ok (.StopIteration none)) ∧
    PyIter.next vmPlain ⟨⟨1, 8⟩⟩ ⟨0, 0, 0⟩ =
      (⟨0, 0, 0⟩, .error ⟨.typeError, [],
        some (singleQuote ++ "Flub" ++ singleQuote ++ " object is not an iterator")⟩) :=
  ⟨(c5_advance_resolution vmSelfIter ⟨⟨0, 7⟩⟩ ⟨0, 0, 0⟩).2 0 rfl,
   (c5_advance_resolution vmPlain ⟨⟨1, 8⟩⟩ ⟨0, 0, 0⟩).1 rfl⟩

/-- C6: `from_pyresult` maps success to `Return`, a failure of the
exhaustion class to `StopIteration` carrying the signal's first argument
if any (else `none`), and any other failure through unchanged. -/
theorem c6_from_pyresult :
    (∀ x : PyObjectRef, PyIterReturn.from_pyresult (.ok x) = .ok (.Return x)) ∧
    (∀ e : PyBaseException, e.kind = .stopIteration →
      PyIterReturn.from_pyresult (.error e) = .ok (.StopIteration e.args.head?)) ∧
    (∀ e : PyBaseException, e.kind ≠ .stopIteration →
      PyIterReturn.from_pyresult (.error e) = .error e) := by
  refine ⟨fun x => rfl, fun e he => ?_, fun e he => ?_⟩
  · cases e with
    | mk k args m =>
        cases args with
        | nil => simp_all [PyIterReturn.from_pyresult, PyBaseException.isinstance,
            PyBaseException.get_arg]
        | cons a l => simp_all [PyIterReturn.from_pyresult, PyBaseException.isinstance,
            PyBaseException.get_arg]
  · simp [PyIterReturn.from_pyresult, PyBaseException.isinstance, he]

/-- C6 witness: an exhaustion signal with one argument normalizes to
`StopIteration (some arg)`; a signal of another class propagates
unchanged. -/
theorem c6_witness :
    PyIterReturn.from_pyresult (.error ⟨.stopIteration, [⟨0, 5⟩], none⟩) =
      .ok (.StopIteration (some ⟨0, 5⟩)) ∧
    PyIterReturn.from_pyresult (.error ⟨.otherError, [], none⟩) =
      .error ⟨.otherError, [], none⟩ :=
  ⟨c6_from_pyresult.2.1 ⟨.stopIteration, [⟨0, 5⟩], none⟩ rfl,
   c6_from_pyresult.2.2 ⟨.otherError, [], none⟩ (by decide)⟩

/-- C7: `from_getitem_result` maps success to `Return`, an index-error
failure to `StopIteration none`, an exhaustion-class failure to
`StopIteration` carrying the first argument if any, and any other
failure through unchanged (the branches are tested in that order). -/
theorem c7_from_getitem_result :
    (∀ x : PyObjectRef, PyIterReturn.from_getitem_result (.ok x) = .ok (.Return x)) ∧
    (∀ e : PyBaseException, e.kind = .indexError →
      PyIterReturn.from_getitem_result (.error e) = .ok (.StopIteration none)) ∧
    (∀ e : PyBaseException, e.kind = .stopIteration →
      PyIterReturn.from_getitem_result (.error e) = .ok (.StopIteration e.args.head?)) ∧
    (∀ e : PyBaseException, e.kind ≠ .indexError → e.kind ≠ .stopIteration →
      PyIterReturn.from_getitem_result (.error e) = .error e) := by
  refine ⟨fun x => rfl, fun e he => ?_, fun e he => ?_, fun e h1 h2 => ?_⟩
  · simp [PyIterReturn.from_getitem_result, PyBaseException.isinstance, he]
  · cases e with
    | mk k args m =>
        cases args with
        | nil => simp_all [PyIterReturn.from_getitem_result, PyBaseException.isinstance,
            PyBaseException.get_arg]
        | cons a l => simp_all [PyIterReturn.from_getitem_result, PyBaseException.isinstance,
            PyBaseException.get_arg]
  · simp [PyIterReturn.from_getitem_result, PyBaseException.isinstance, h1, h2]

/-- C7 witness: an index error normalizes to `StopIteration none`; an
exhaustion signal carrying an argument keeps its payload; another class
propagates unchanged. -/
theorem c7_witness :
    PyIterReturn.from_getitem_result (.error ⟨.indexError, [⟨0, 5⟩], none⟩) =
      .ok (.StopIteration none) ∧
    PyIterReturn.from_getitem_result (.error ⟨.stopIteration, [⟨0, 6⟩], none⟩) =
      .ok (.StopIteration (some ⟨0, 6⟩)) ∧
    PyIterReturn.from_getitem_result (.error ⟨.otherError, [], none⟩) =
      .error ⟨.otherError, [], none⟩ :=
  ⟨c7_from_getitem_result.2.1 ⟨.indexError, [⟨0, 5⟩], none⟩ rfl,
   c7_from_getitem_result.2.2.1 ⟨.stopIteration, [⟨0, 6⟩], none⟩ rfl,
   c7_from_getitem_result.2.2.2 ⟨.otherError, [], none⟩ (by decide) (by decide)⟩

/-- C8: the Async Projector maps `Return v` to success with `v`,
`StopIteration (some x)` to the async exhaustion signal with argument
list `[x]`, and `StopIteration none` to that signal with an empty
argument list. -/
theorem c8_into_async_pyresult (vm : VirtualMachine) :
    (∀ x : PyObjectRef, PyIterReturn.into_async_pyresult vm (.Return x) = .ok x) ∧
    (∀ x : PyObjectRef, PyIterReturn.into_async_pyresult vm (.StopIteration (some x)) =
      .error ⟨.stopAsyncIteration, [x], none⟩) ∧
    (PyIterReturn.into_async_pyresult vm (.StopIteration none) =
      .error ⟨.stopAsyncIteration, [], none⟩) :=
  ⟨fun _ => rfl, fun _ => rfl, rfl⟩

/-- C9: the length hint is probed exactly once at adapter construction
(`PyIter::iter` advances the probe counter by one, whatever the
outcome) and stored; `size_hint` always returns
`(hint.unwrap_or(0), hint)` on the stored value; and the adapter's
produce-next never touches the probe counter, so the hint is never
recomputed. -/
theorem c9_length_hint_once (vm : VirtualMachine) (it : PyIter) (s : VMState) :
    (PyIter.iter vm it s).1.lengthHintCalls = s.lengthHintCalls + 1 ∧
    (∀ h : Option Nat, vm.lengthHintFn it.obj s.lengthHintCalls = .ok h →
      (PyIter.iter vm it s).2 = .ok ⟨⟨it.obj⟩, h⟩) ∧
    (∀ a : PyIterIter, PyIterIter.size_hint a = (a.length_hint.getD 0, a.length_hint)) ∧
    (∀ a : PyIterIter, ∀ s2 : VMState,
      (PyIterIter.next vm a s2).1.lengthHintCalls = s2.lengthHintCalls) := by
  refine ⟨?_, fun h hres => ?_, fun a => rfl, fun a s2 => ?_⟩
  · unfold PyIter.iter
    cases hres : vm.lengthHintFn it.obj s.lengthHintCalls with
    | ok h => simp
    | error e => simp
  · simp [PyIter.iter, hres]
  · unfold PyIterIter.next PyIter.next
    cases hres : vm.mro_find_map (vm.classOf a.obj.obj) PyType.iternextSlot with
    | none => simp [hres]
    | some slotId => simp [hres]

/-- C9 witness: constructing the adapter in `vmSelfIter` probes the
length collaborator once, stores `some 3`, and `size_hint` reports
`(3, some 3)`. -/
theorem c9_witness :
    (PyIter.iter vmSelfIter ⟨⟨0, 7⟩⟩ ⟨0, 0, 0⟩).1.lengthHintCalls = 1 ∧
    (PyIter.iter vmSelfIter ⟨⟨0, 7⟩⟩ ⟨0, 0, 0⟩).2 = .ok ⟨⟨⟨0, 7⟩⟩, some 3⟩ ∧
    PyIterIter.size_hint ⟨⟨⟨0, 7⟩⟩, some 3⟩ = (3, some 3) := by
  have h := c9_length_hint_once vmSelfIter ⟨⟨0, 7⟩⟩ ⟨0, 0, 0⟩
  exact ⟨h.1, h.2.1 (some 3) rfl, h.2.2.1 ⟨⟨⟨0, 7⟩⟩, some 3⟩⟩

/-- C10: re-normalizing `into_pyresult` with `from_pyresult` is the
identity on `PyIterReturn`: `Return obj` and `StopIteration v` (for
`v = none` and `v = some x`) both round-trip. -/
theorem c10_roundtrip (vm : VirtualMachine) (r : PyIterReturn) :
    PyIterReturn.from_pyresult (PyIterReturn.into_pyresult vm r) = .ok r := by
  cases r with
  | Return obj => rfl
  | StopIteration v =>
      cases v with
      | none => rfl
      | some x => rfl
